import Mathlib

set_option linter.unusedVariables false

/-!
Shallow embedding of the resilient inference-client / broadcast core of the
Junghwan-bot repository (src/bot/gemini_client.py, src/bot/conversation_manager.py,
src/bot/broadcast_manager.py, src/bot/user_manager.py), together with theorems
settling the spec claims about it.

Machine conventions: wall-clock time is modelled as a natural number of seconds
(Python `time.time()`); Python strings are modelled as Lean `String`s, with the
character-level operations (`in`, `split`, `replace`, `lower`, `strip`, slicing)
implemented structurally over `String.data` so that concrete inputs evaluate
inside the kernel; randomness (`random.random()`, `random.choice`) is modelled
as an explicit extra input; the network is modelled as an environment function
giving the outcome of calling the backend with a given credential index.
-/

/- ## Character-level string operations (Python str semantics) -/

/-- Python `list(prefix) is a prefix of list(l)` test, structurally. -/
def chIsPrefix : List Char → List Char → Bool
  | [], _ => true
  | _ :: _, [] => false
  | a :: as, b :: bs => a == b && chIsPrefix as bs

/-- Python `pat in s` substring containment over character lists. -/
def chContains (pat : List Char) : List Char → Bool
  | [] => chIsPrefix pat []
  | c :: rest => chIsPrefix pat (c :: rest) || chContains pat rest

/-- Python `pat in s` on strings. -/
def strContains (s pat : String) : Bool := chContains pat.data s.data

/-- Python `s.split(sep)` over character lists, fuelled so that the
recursion is structural (fuel ≥ length of the input suffices for a
non-empty separator). -/
def chSplitOnFuel (sep : List Char) : Nat → List Char → List Char → List (List Char)
  | 0, acc, l => [acc.reverse ++ l]
  | fuel + 1, acc, l =>
    match l with
    | [] => [acc.reverse]
    | c :: rest =>
      if chIsPrefix sep (c :: rest) then
        acc.reverse :: chSplitOnFuel sep fuel [] ((c :: rest).drop sep.length)
      else
        chSplitOnFuel sep fuel (c :: acc) rest

/-- Python `s.split(sep)` on strings. -/
def strSplitOn (s sep : String) : List String :=
  (chSplitOnFuel sep.data (s.data.length + 1) [] s.data).map (fun cs => ⟨cs⟩)

/-- Python `sep.join(parts)`. -/
def strJoinSep (sep : String) : List String → String
  | [] => ""
  | [s] => s
  | s :: rest => s ++ sep ++ strJoinSep sep rest

/-- Python `s.replace(pat, repl)` over character lists, fuelled (non-empty
pattern; fuel ≥ length of the input suffices). -/
def chReplaceFuel (pat repl : List Char) : Nat → List Char → List Char
  | 0, l => l
  | fuel + 1, l =>
    match l with
    | [] => []
    | c :: rest =>
      if chIsPrefix pat (c :: rest) then
        repl ++ chReplaceFuel pat repl fuel ((c :: rest).drop pat.length)
      else
        c :: chReplaceFuel pat repl fuel rest

/-- Python `s.replace(pat, repl)` on strings. -/
def strReplace (s pat repl : String) : String :=
  ⟨chReplaceFuel pat.data repl.data (s.data.length + 1) s.data⟩

/-- Python `s.endswith(suffix)`. -/
def strEndsWith (s suffix : String) : Bool :=
  chIsPrefix suffix.data.reverse s.data.reverse

/-- Python `s.lower()`. -/
def strLower (s : String) : String := ⟨s.data.map Char.toLower⟩

/-- Python `s.strip()`. -/
def strTrim (s : String) : String :=
  ⟨((s.data.dropWhile Char.isWhitespace).reverse.dropWhile Char.isWhitespace).reverse⟩

/-- Python `s[:n]`. -/
def strTake (s : String) (n : Nat) : String := ⟨s.data.take n⟩

/-- Python `s[:-1]`. -/
def strDropLast (s : String) : String := ⟨s.data.dropLast⟩

/- ## GeminiClient (src/bot/gemini_client.py) -/

/-- Mutable fields of `GeminiClient` relevant to circuit breaking and key
rotation.  `numKeys` is `len(self.api_keys)`; the `self.client` object is
determined by `currentIndex` and therefore not modelled separately. -/
structure ClientState where
  numKeys : Nat
  currentIndex : Nat
  failureCount : Nat
  maxFailures : Nat
  circuitOpen : Bool
  circuitResetTime : Option Nat
  deriving DecidableEq

/-- Outcome of one backend call made with a given credential, as classified by
the `except` clause of `generate_response` (lines 78-96 of gemini_client.py):
a non-empty response text, an empty/absent response, an exception classified as
quota/rate-limit (status 429, or message containing "quota" / "rate limit"),
or any other exception. -/
inductive GenOutcome where
  | ok (text : String)
  | empty
  | quotaErr
  | otherErr
  deriving DecidableEq

/-- The two random draws consumed by `_post_process_response`:
`lowDraw` models `random.random() < 0.2` and `choice` models the index picked
by `random.choice(casual_endings)`. -/
structure RandDraw where
  lowDraw : Bool
  choice : Nat
  deriving DecidableEq

/-- `GeminiClient._rotate_key` (lines 26-31): advance the credential cursor
cyclically. -/
def rotateKey (s : ClientState) : ClientState :=
  { s with currentIndex := (s.currentIndex + 1) % s.numKeys }

/-- `GeminiClient._handle_failure` (lines 150-155): increment the failure
count and open the circuit for 300 s once it reaches `max_failures`. -/
def handleFailure (s : ClientState) (now : Nat) : ClientState :=
  let s := { s with failureCount := s.failureCount + 1 }
  if s.failureCount ≥ s.maxFailures then
    { s with circuitOpen := true, circuitResetTime := some (now + 300) }
  else s

/-- `GeminiClient._is_circuit_open` (lines 157-166): returns whether the
circuit is (still) open, closing it and resetting the failure count when the
reset time has passed.  The Python method mutates `self`; here it returns the
updated state alongside the answer. -/
def isCircuitOpen (s : ClientState) (now : Nat) : Bool × ClientState :=
  if !s.circuitOpen then (false, s)
  else
    match s.circuitResetTime with
    | some rt =>
      if now > rt then
        (false, { s with circuitOpen := false, failureCount := 0, circuitResetTime := none })
      else (true, s)
    | none => (true, s)

/-- The unwanted "I am an AI/assistant" phrase list of
`_post_process_response` (lines 108-119). -/
def unwantedPhrases : List String :=
  ["I\x27m an AI", "As an AI", "I\x27m here to help", "How can I assist",
   "I don\x27t have personal opinions", "I can\x27t feel emotions",
   "I don\x27t have personal experiences", "As a language model",
   "I\x27m a chatbot", "I\x27m a bot", "I\x27m an assistant", "I\x27m designed to",
   "My purpose is", "I was created to", "I\x27m programmed to",
   "Is there anything else you\x27d like to know", "How can I help you",
   "Let me know if you need anything", "I\x27m happy to help",
   "I\x27d be happy to", "I can help you with", "I can assist you",
   "As a digital assistant", "I don\x27t have feelings", "I can\x27t experience",
   "I don\x27t have the ability to", "I\x27m not able to feel", "I lack the capacity"]

/-- The casual filler endings of `_post_process_response` (line 127). -/
def casualEndings : List String := [" lol", " haha", " 😊", " right?", " you know?"]

/-- The phrase-removal loop of `_post_process_response` (lines 120-123):
for each unwanted phrase present (case-insensitively) in the text, re-split
the text on `". "` and keep only the sentences not containing the phrase. -/
def removeUnwantedPhrases (text : String) : String :=
  unwantedPhrases.foldl
    (fun text phrase =>
      if strContains (strLower text) (strLower phrase) then
        strJoinSep ". "
          ((strSplitOn text ". ").filter
            (fun s => !(strContains (strLower s) (strLower phrase))))
      else text)
    text

/-- The sentence-accumulation loop of the truncation branch of
`_post_process_response` (lines 133-138): keep whole sentences while the
running character count stays within 800. -/
def truncAccum : List String → Nat → List String
  | [], _ => []
  | s :: rest, cnt =>
    if cnt + s.length > 800 then []
    else s :: truncAccum rest (cnt + s.length)

/-- `GeminiClient._post_process_response` (lines 104-148): strip markdown
asterisks, remove sentences containing unwanted phrases, optionally append a
casual ending (random draws made explicit in `rand`), truncate to the
character budget, and strip whitespace. -/
def postProcessResponse (text language tone : String) (rand : RandDraw) : String :=
  let text := strReplace (strReplace text "**" "") "*" ""
  let text := removeUnwantedPhrases text
  let text :=
    if strEndsWith text "." then
      if tone == "casual" then
        if text.length > 50 then
          if rand.lowDraw then
            strDropLast text ++ casualEndings.getD (rand.choice % casualEndings.length) ""
          else text
        else text
      else text
    else text
  let text :=
    if text.length > 1000 then
      let sentences := strSplitOn text ". "
      let truncated := truncAccum sentences 0
      if truncated.length > 0 then
        let t := strJoinSep ". " truncated
        if strEndsWith t "." then t else t ++ "."
      else strTake text 800 ++ "..."
    else text
  strTrim text

/-- The retry loop of `generate_response` (lines 63-98),
`for _ in range(len(self.api_keys))`.  The network is abstracted by
`outcomes`, giving the classified outcome of calling the backend with a given
credential index; the loop counter is the remaining fuel.  A non-empty
response resets the failure count and closes the circuit and returns the
post-processed text; an empty response or a non-quota error records one
failure and returns `none`; a quota error rotates the key and retries; an
exhausted loop falls through to line 97 and returns `none` without touching
the failure count. -/
def genLoop (outcomes : Nat → GenOutcome) (now : Nat) (language tone : String)
    (rand : RandDraw) : Nat → ClientState → Option String × ClientState
  | 0, s => (none, s)
  | fuel + 1, s =>
    match outcomes s.currentIndex with
    | .ok t =>
      (some (postProcessResponse (strTrim t) language tone rand),
       { s with failureCount := 0, circuitOpen := false })
    | .empty => (none, handleFailure s now)
    | .quotaErr => genLoop outcomes now language tone rand fuel (rotateKey s)
    | .otherErr => (none, handleFailure s now)

/-- `GeminiClient.generate_response` (lines 33-102): check the circuit
breaker; if open, return `None` without consulting the network; otherwise run
the rotation loop for `len(self.api_keys)` iterations.  (The prompt
construction of lines 47-61 only feeds the network call and is absorbed into
`outcomes`.) -/
def generateResponse (s : ClientState) (outcomes : Nat → GenOutcome) (now : Nat)
    (language tone : String) (rand : RandDraw) : Option String × ClientState :=
  let checked := isCircuitOpen s now
  if checked.1 then (none, checked.2)
  else genLoop outcomes now language tone rand checked.2.numKeys checked.2

/- ## ConversationContext and context cleanup (src/bot/conversation_manager.py) -/

/-- One entry of `ConversationContext.messages`.  The Python code stores the
timestamp as an ISO string of `datetime.now()`; it is modelled as seconds. -/
structure Message where
  role : String
  content : String
  timestamp : Nat
  deriving DecidableEq

/-- `ConversationContext` (lines 12-43): per-user history with activity
tracking and inferred language/tone. -/
structure ConversationContext where
  userId : Int
  messages : List Message
  lastActivity : Nat
  language : String
  tone : String
  deriving DecidableEq

/-- `ConversationContext.add_message` (lines 23-35): append the turn, keep
only the last 20 messages (`self.messages[-20:]`) when the length exceeds 20,
and update `last_activity`. -/
def addMessage (ctx : ConversationContext) (role content : String) (now : Nat) :
    ConversationContext :=
  let msgs := ctx.messages ++ [⟨role, content, now⟩]
  let msgs := if msgs.length > 20 then msgs.drop (msgs.length - 20) else msgs
  { ctx with messages := msgs, lastActivity := now }

/-- `ConversationContext.is_expired` (lines 41-43):
`datetime.now() - last_activity > timedelta(hours=timeout_hours)`. -/
def isExpired (ctx : ConversationContext) (timeoutHours now : Nat) : Bool :=
  now - ctx.lastActivity > timeoutHours * 3600

/-- The deletion loop of `_cleanup_expired_contexts` (lines 242-245).  After
`del self.contexts[user_id]` the body evaluates
`if user_id in self.rate_limits:`; `hasRateLimitsAttr` records whether the
object has a `rate_limits` attribute (its initialization at line 58 of
`__init__` is commented out, so in the program as written it does not), and
when it does not the access raises `AttributeError`, abandoning the remaining
deletions (the exception is swallowed by the `except` at line 250). -/
def cleanupDeleteLoop (hasRateLimitsAttr : Bool) :
    List Int → List (Int × ConversationContext) → List (Int × ConversationContext)
  | [], ctxs => ctxs
  | u :: rest, ctxs =>
    let ctxs := ctxs.eraseP (fun p => p.1 == u)
    if hasRateLimitsAttr then cleanupDeleteLoop hasRateLimitsAttr rest ctxs
    else ctxs

/-- One iteration of the hourly sweep `_cleanup_expired_contexts`
(lines 236-245): collect the users whose context is expired, then run the
deletion loop.  The store is an insertion-ordered association list, matching
Python dict iteration order; `false` is passed for `hasRateLimitsAttr`
because `self.rate_limits` is never initialized in the source. -/
def cleanupSweepOnce (ctxs : List (Int × ConversationContext))
    (timeoutHours now : Nat) : List (Int × ConversationContext) :=
  let expiredUsers := (ctxs.filter (fun p => isExpired p.2 timeoutHours now)).map (fun p => p.1)
  cleanupDeleteLoop false expiredUsers ctxs

/- ## Fallback responses (src/bot/conversation_manager.py, lines 189-212) -/

/-- The formal-tone fallback pool of `_get_fallback_response` (lines 192-196). -/
def formalFallbackResponses : List String :=
  ["I apologize, but I\x27m having difficulty processing that right now.",
   "Could you please rephrase your question?",
   "I\x27m experiencing some technical difficulties at the moment."]

/-- The casual-tone fallback pool of `_get_fallback_response` (lines 198-204). -/
def casualFallbackResponses : List String :=
  ["Sorry, my brain\x27s having a moment! Can you try that again?",
   "Hmm, I\x27m not sure I caught that. What were you saying?",
   "Oops, something went wrong on my end. Mind rephrasing?",
   "My thoughts are a bit scattered right now. Could you repeat that?",
   "I\x27m having trouble processing that. Can you say it differently?"]

/-- `ConversationManager._get_fallback_response` (lines 189-212): pick one
response from the tone-matched pool (`random.choice` modelled by the explicit
index `choiceIdx`), and prefix it with the user name, lowercased, when a
non-empty name is given and the tone is not formal. -/
def getFallbackResponse (tone : String) (userName : Option String)
    (choiceIdx : Nat) : String :=
  let responses := if tone == "formal" then formalFallbackResponses else casualFallbackResponses
  let response := responses.getD (choiceIdx % responses.length) ""
  match userName with
  | some name =>
    if name != "" && tone != "formal" then name ++ ", " ++ strLower response
    else response
  | none => response

/-- The tail of `ConversationManager.get_response` (lines 124-135): when the
inference client produced a text, return it enhanced by the persona
collaborator (abstracted as `enhance`); when it produced `None`
(circuit open, exhausted rotation, non-quota error or empty response), return
the locally chosen fallback. -/
def getResponseReply (aiResponse : Option String) (tone : String)
    (userName : Option String) (enhance : String → String) (choiceIdx : Nat) : String :=
  match aiResponse with
  | some t => enhance t
  | none => getFallbackResponse tone userName choiceIdx

/- ## Chat registry (src/bot/user_manager.py) -/

/-- The fields of one `self.chats[chat_id]` record touched by broadcasting
and removal (`register_chat`, lines 67-76). -/
structure ChatData where
  chatId : Int
  chatType : String
  title : Option String
  isActive : Bool
  removedDate : Option Nat
  deriving DecidableEq

/-- `UserManager.remove_chat` (lines 84-94): when the chat is present, set
`is_active` to `False` and stamp `removed_date`; otherwise do nothing.  The
registry is an association list keyed by chat id. -/
def removeChat (chats : List (Int × ChatData)) (chatId : Int) (now : Nat) :
    List (Int × ChatData) :=
  chats.map (fun p =>
    if p.1 == chatId then
      (p.1, { p.2 with isActive := false, removedDate := some now })
    else p)

/- ## BroadcastManager (src/bot/broadcast_manager.py) -/

/-- One broadcast target (built in `_get_broadcast_targets`, lines 105-109). -/
structure BTarget where
  chatId : Int
  chatType : String
  title : String
  deriving DecidableEq

/-- The per-delivery outcome of `send_to_chat` (lines 136-168):
`bot.send_message` succeeded; or raised a `TelegramAPIError` whose message
marks the destination as permanently gone ("bot was blocked" / "chat not
found"); or raised any other `TelegramAPIError`; or raised some other
exception. -/
inductive SendOutcome where
  | success
  | apiErrorGone
  | apiErrorOther
  | otherError
  deriving DecidableEq

/-- The four `nonlocal` counters of `_send_to_targets` (lines 124-127). -/
structure SendCounters where
  success : Nat
  failed : Nat
  users : Nat
  groups : Nat
  deriving DecidableEq

/-- The aggregated dictionary returned by `_send_to_targets`
(lines 174-180). -/
structure BroadcastSendResult where
  success : Nat
  failed : Nat
  totalUsers : Nat
  totalGroups : Nat
  totalTargets : Nat
  deriving DecidableEq

/-- The body of `send_to_chat` (lines 136-168) for one target: on success
increment `success_count` and the counter matching the chat type; on a
permanently-gone `TelegramAPIError` increment `failed_count` and call
`user_manager.remove_chat`; on any other error increment `failed_count`
only.  Returns the updated counters and registry. -/
def sendToChatStep (counters : SendCounters) (chats : List (Int × ChatData))
    (target : BTarget) (outcome : SendOutcome) (now : Nat) :
    SendCounters × List (Int × ChatData) :=
  match outcome with
  | .success =>
    ({ counters with
        success := counters.success + 1,
        users := if target.chatType == "private" then counters.users + 1 else counters.users,
        groups := if target.chatType == "private" then counters.groups else counters.groups + 1 },
     chats)
  | .apiErrorGone =>
    ({ counters with failed := counters.failed + 1 }, removeChat chats target.chatId now)
  | .apiErrorOther =>
    ({ counters with failed := counters.failed + 1 }, chats)
  | .otherError =>
    ({ counters with failed := counters.failed + 1 }, chats)

/-- The delivery loop of `_send_to_targets` (lines 170-172): one
`send_to_chat` per target.  The deliveries run under a semaphore and are
merged through commutative counter increments, so the aggregate is modelled
by folding the per-target steps in target order; `outcomes i` is the
delivery outcome for the `i`-th target. -/
def sendToTargetsLoop (outcomes : Nat → SendOutcome) (now : Nat) :
    List BTarget → Nat → SendCounters → List (Int × ChatData) →
    SendCounters × List (Int × ChatData)
  | [], _, counters, chats => (counters, chats)
  | t :: rest, i, counters, chats =>
    let step := sendToChatStep counters chats t (outcomes i) now
    sendToTargetsLoop outcomes now rest (i + 1) step.1 step.2

/-- `BroadcastManager._send_to_targets` (lines 122-180): run the delivery
loop starting from zeroed counters and package the result dictionary
(`total_targets` is `len(targets)`). -/
def sendToTargets (targets : List BTarget) (outcomes : Nat → SendOutcome)
    (chats : List (Int × ChatData)) (now : Nat) :
    BroadcastSendResult × List (Int × ChatData) :=
  let final := sendToTargetsLoop outcomes now targets 0 ⟨0, 0, 0, 0⟩ chats
  ({ success := final.1.success, failed := final.1.failed,
     totalUsers := final.1.users, totalGroups := final.1.groups,
     totalTargets := targets.length },
   final.2)

/- ## Helper lemmas about the inference client -/

/-- Iterated key rotation advances the cursor cyclically. -/
theorem rotateKey_iterate (s : ClientState) (k : Nat)
    (h : s.currentIndex < s.numKeys) :
    rotateKey^[k] s = { s with currentIndex := (s.currentIndex + k) % s.numKeys } := by
  induction k with
  | zero =>
    simp [Function.iterate_zero, Nat.mod_eq_of_lt h]
  | succ k ih =>
    rw [Function.iterate_succ_apply', ih, rotateKey]
    have harith : ((s.currentIndex + k) % s.numKeys + 1) % s.numKeys
        = (s.currentIndex + (k + 1)) % s.numKeys := by
      rw [Nat.mod_add_mod, Nat.add_assoc]
    simp [harith]

/-- A run of `k` quota-classified failures along the rotation orbit reduces
the loop to the loop on the `k`-times-rotated state. -/
theorem genLoop_skip (outcomes : Nat → GenOutcome) (now : Nat)
    (language tone : String) (rand : RandDraw) (k fuel : Nat) (s : ClientState)
    (hidx : s.currentIndex < s.numKeys)
    (hq : ∀ i, i < k → outcomes ((s.currentIndex + i) % s.numKeys) = GenOutcome.quotaErr) :
    genLoop outcomes now language tone rand (k + fuel) s
      = genLoop outcomes now language tone rand fuel (rotateKey^[k] s) := by
  induction k generalizing s with
  | zero => simp
  | succ k ih =>
    have hpos : 0 < s.numKeys := Nat.lt_of_le_of_lt (Nat.zero_le _) hidx
    have h0 : outcomes s.currentIndex = GenOutcome.quotaErr := by
      have h := hq 0 (Nat.succ_pos k)
      rwa [Nat.add_zero, Nat.mod_eq_of_lt hidx] at h
    have harith : k + 1 + fuel = (k + fuel) + 1 := by omega
    rw [harith]
    show (match outcomes s.currentIndex with
      | .ok t =>
        (some (postProcessResponse (strTrim t) language tone rand),
         { s with failureCount := 0, circuitOpen := false })
      | .empty => (none, handleFailure s now)
      | .quotaErr => genLoop outcomes now language tone rand (k + fuel) (rotateKey s)
      | .otherErr => (none, handleFailure s now)) = _
    rw [h0]
    have hidx2 : (rotateKey s).currentIndex < (rotateKey s).numKeys := by
      simp [rotateKey]
      exact Nat.mod_lt _ hpos
    have hq2 : ∀ i, i < k →
        outcomes (((rotateKey s).currentIndex + i) % (rotateKey s).numKeys)
          = GenOutcome.quotaErr := by
      intro i hi
      have h := hq (i + 1) (Nat.succ_lt_succ hi)
      have harith2 : ((s.currentIndex + 1) % s.numKeys + i) % s.numKeys
          = (s.currentIndex + (i + 1)) % s.numKeys := by
        rw [Nat.mod_add_mod]
        congr 1
        omega
      simpa [rotateKey, harith2] using h
    rw [ih (rotateKey s) hidx2 hq2, ← Function.iterate_succ_apply]

/-- One loop iteration hitting an empty response or a non-quota error returns
`none` after recording exactly one failure. -/
theorem genLoop_terminal (outcomes : Nat → GenOutcome) (now : Nat)
    (language tone : String) (rand : RandDraw) (fuel : Nat) (s : ClientState)
    (hterm : outcomes s.currentIndex = GenOutcome.empty ∨
             outcomes s.currentIndex = GenOutcome.otherErr) :
    genLoop outcomes now language tone rand (fuel + 1) s = (none, handleFailure s now) := by
  rcases hterm with h | h <;> simp [genLoop, h]

/-- With a closed circuit, `generate_response` is exactly the rotation loop
run for `len(self.api_keys)` iterations. -/
theorem generateResponse_closed (s : ClientState) (outcomes : Nat → GenOutcome)
    (now : Nat) (language tone : String) (rand : RandDraw)
    (hclosed : s.circuitOpen = false) :
    generateResponse s outcomes now language tone rand
      = genLoop outcomes now language tone rand s.numKeys s := by
  simp [generateResponse, isCircuitOpen, hclosed]

/-- A full all-quota rotation cycle returns `none` and leaves the state
exactly as it was (in particular the failure count is not touched). -/
theorem genLoop_all_quota (outcomes : Nat → GenOutcome) (now : Nat)
    (language tone : String) (rand : RandDraw) (s : ClientState)
    (hidx : s.currentIndex < s.numKeys)
    (hq : ∀ c, c < s.numKeys → outcomes c = GenOutcome.quotaErr) :
    genLoop outcomes now language tone rand s.numKeys s = (none, s) := by
  have hpos : 0 < s.numKeys := Nat.lt_of_le_of_lt (Nat.zero_le _) hidx
  have hq2 : ∀ i, i < s.numKeys →
      outcomes ((s.currentIndex + i) % s.numKeys) = GenOutcome.quotaErr := by
    intro i hi
    exact hq _ (Nat.mod_lt _ hpos)
  have h := genLoop_skip outcomes now language tone rand s.numKeys 0 s hidx hq2
  rw [Nat.add_zero] at h
  rw [h, rotateKey_iterate s s.numKeys hidx, Nat.add_mod_right, Nat.mod_eq_of_lt hidx]
  rfl

/- ## Claim C2: circuit breaker fail-fast and reset -/

/-- C2: if the circuit is open and `now ≤ resetAt`, `generate_response` fails
immediately with `None` and an unchanged state, for every network environment
(no network call is attempted); and when `now > resetAt`, the call behaves
exactly as if the circuit were closed with the failure count reset to 0,
regardless of the prior failure count. -/
theorem c2_circuit_fail_fast_and_reset (s : ClientState) (outcomes : Nat → GenOutcome)
    (now rt : Nat) (language tone : String) (rand : RandDraw)
    (hopen : s.circuitOpen = true) (hrt : s.circuitResetTime = some rt) :
    (now ≤ rt → generateResponse s outcomes now language tone rand = (none, s)) ∧
    (now > rt →
      generateResponse s outcomes now language tone rand
        = generateResponse
            { s with circuitOpen := false, failureCount := 0, circuitResetTime := none }
            outcomes now language tone rand) := by
  constructor
  · intro hle
    have hngt : ¬ (now > rt) := by omega
    simp [generateResponse, isCircuitOpen, hopen, hrt, hngt]
  · intro hgt
    simp [generateResponse, isCircuitOpen, hopen, hrt, hgt]

/-- Witness for C2 at a concrete open-circuit state within the reset window:
even with a network that would answer successfully, the call returns `None`
and the state is untouched. -/
theorem c2_witness :
    generateResponse ⟨2, 0, 5, 5, true, some 100⟩ (fun _ => GenOutcome.ok "hi") 50
        "en" "casual" ⟨false, 0⟩
      = (none, ⟨2, 0, 5, 5, true, some 100⟩) :=
  (c2_circuit_fail_fast_and_reset ⟨2, 0, 5, 5, true, some 100⟩
    (fun _ => GenOutcome.ok "hi") 50 100 "en" "casual" ⟨false, 0⟩ rfl rfl).1 (by decide)

/- ## Claim C3: failure accounting (corrected) -/

/-- Counterexample to C3 as stated: with 2 credentials, a closed circuit and
failure count 3, a call in which every credential fails with a
quota-classified error is a terminal failure (an exhausted full rotation
cycle, returning `None`), yet the failure count is left at 3 instead of being
incremented to 4: the fall-through at line 97 of gemini_client.py does not
call `_handle_failure`. -/
theorem c3_counterexample :
    generateResponse ⟨2, 0, 3, 5, false, none⟩ (fun _ => GenOutcome.quotaErr) 1000
        "en" "casual" ⟨false, 0⟩
      = (none, ⟨2, 0, 3, 5, false, none⟩) ∧
    (generateResponse ⟨2, 0, 3, 5, false, none⟩ (fun _ => GenOutcome.quotaErr) 1000
        "en" "casual" ⟨false, 0⟩).2.failureCount ≠ 3 + 1 := by
  exact ⟨by decide, by decide⟩

/-- C3 amended: with a closed circuit, a terminal failure caused by an
empty/absent result or a non-quota error (reached after any run of
quota-classified failures shorter than the pool) increments `failureCount` by
exactly one, opening the circuit with `resetAt = now + 300` as soon as the
count reaches `maxFailures`; an exhausted full rotation cycle, by contrast,
returns failure without changing `failureCount` at all. -/
theorem c3_terminal_failure_accounting (s : ClientState) (outcomes : Nat → GenOutcome)
    (now : Nat) (language tone : String) (rand : RandDraw)
    (hclosed : s.circuitOpen = false)
    (hidx : s.currentIndex < s.numKeys) :
    (∀ j, j < s.numKeys →
      (∀ i, i < j → outcomes ((s.currentIndex + i) % s.numKeys) = GenOutcome.quotaErr) →
      (outcomes ((s.currentIndex + j) % s.numKeys) = GenOutcome.empty ∨
       outcomes ((s.currentIndex + j) % s.numKeys) = GenOutcome.otherErr) →
      (generateResponse s outcomes now language tone rand).1 = none ∧
      (generateResponse s outcomes now language tone rand).2.failureCount
        = s.failureCount + 1 ∧
      (s.failureCount + 1 ≥ s.maxFailures →
        (generateResponse s outcomes now language tone rand).2.circuitOpen = true ∧
        (generateResponse s outcomes now language tone rand).2.circuitResetTime
          = some (now + 300)) ∧
      (s.failureCount + 1 < s.maxFailures →
        (generateResponse s outcomes now language tone rand).2.circuitOpen = false)) ∧
    ((∀ c, c < s.numKeys → outcomes c = GenOutcome.quotaErr) →
      (generateResponse s outcomes now language tone rand).1 = none ∧
      (generateResponse s outcomes now language tone rand).2.failureCount
        = s.failureCount) := by
  constructor
  · intro j hj hq hterm
    have hsplit : s.numKeys = j + ((s.numKeys - j - 1) + 1) := by omega
    have hrot := rotateKey_iterate s j hidx
    have hskip := genLoop_skip outcomes now language tone rand j
      ((s.numKeys - j - 1) + 1) s hidx hq
    have hterm2 : outcomes (rotateKey^[j] s).currentIndex = GenOutcome.empty ∨
        outcomes (rotateKey^[j] s).currentIndex = GenOutcome.otherErr := by
      rw [hrot]
      exact hterm
    have hfinal := genLoop_terminal outcomes now language tone rand
      (s.numKeys - j - 1) (rotateKey^[j] s) hterm2
    have hmain : generateResponse s outcomes now language tone rand
        = (none, handleFailure (rotateKey^[j] s) now) := by
      rw [generateResponse_closed s outcomes now language tone rand hclosed]
      rw [hsplit, hskip, hfinal]
    rw [hmain, hrot]
    simp only [handleFailure]
    refine ⟨trivial, ?_, ?_, ?_⟩
    · split <;> rfl
    · intro hge
      split
      · exact ⟨rfl, rfl⟩
      · next hc => exact absurd hge hc
    · intro hlt
      split
      · next hc => exact absurd hc (by omega)
      · exact hclosed
  · intro hq
    rw [generateResponse_closed s outcomes now language tone rand hclosed,
      genLoop_all_quota outcomes now language tone rand s hidx hq]
    exact ⟨rfl, rfl⟩

/-- Witness for C3 amended: one credential, failure count 4 of max 5, an
empty response: the count becomes 5 and the circuit opens until 350. -/
theorem c3_witness :
    (generateResponse ⟨1, 0, 4, 5, false, none⟩ (fun _ => GenOutcome.empty) 50
        "en" "casual" ⟨false, 0⟩).2.failureCount = 4 + 1 ∧
    (generateResponse ⟨1, 0, 4, 5, false, none⟩ (fun _ => GenOutcome.empty) 50
        "en" "casual" ⟨false, 0⟩).2.circuitResetTime = some (50 + 300) := by
  have h := (c3_terminal_failure_accounting ⟨1, 0, 4, 5, false, none⟩
    (fun _ => GenOutcome.empty) 50 "en" "casual" ⟨false, 0⟩ rfl (by decide)).1
    0 (by decide) (fun i hi => absurd hi (by omega)) (Or.inl rfl)
  exact ⟨h.2.1, (h.2.2.1 (by decide)).2⟩

/- ## Claim C4: key rotation, bounded attempts -/

/-- C4: key rotation advances the cursor to `(i+1) mod N`; within one call a
quota-classified failure at the current credential makes the loop continue on
the rotated state; and a call in which every credential fails with a
quota-classified error terminates — after its `len(pool)`-iteration loop, so
at most `N` attempts, each credential tried once — with `None`
(`GenerationFailed`) and the client state exactly as before the call. -/
theorem c4_key_rotation_bounded (s : ClientState) (outcomes : Nat → GenOutcome)
    (now : Nat) (language tone : String) (rand : RandDraw)
    (hclosed : s.circuitOpen = false)
    (hidx : s.currentIndex < s.numKeys)
    (hq : ∀ c, c < s.numKeys → outcomes c = GenOutcome.quotaErr) :
    (∀ s2 : ClientState, (rotateKey s2).currentIndex = (s2.currentIndex + 1) % s2.numKeys) ∧
    (∀ (fuel : Nat) (s2 : ClientState), outcomes s2.currentIndex = GenOutcome.quotaErr →
      genLoop outcomes now language tone rand (fuel + 1) s2
        = genLoop outcomes now language tone rand fuel (rotateKey s2)) ∧
    generateResponse s outcomes now language tone rand = (none, s) := by
  refine ⟨fun s2 => rfl, ?_, ?_⟩
  · intro fuel s2 hq2
    simp [genLoop, hq2]
  · rw [generateResponse_closed s outcomes now language tone rand hclosed]
    exact genLoop_all_quota outcomes now language tone rand s hidx hq

/-- Witness for C4 at a concrete three-credential state: a full quota cycle
returns `None` with the state unchanged. -/
theorem c4_witness :
    generateResponse ⟨3, 1, 2, 5, false, none⟩ (fun _ => GenOutcome.quotaErr) 7
        "en" "casual" ⟨false, 0⟩
      = (none, ⟨3, 1, 2, 5, false, none⟩) :=
  (c4_key_rotation_bounded ⟨3, 1, 2, 5, false, none⟩ (fun _ => GenOutcome.quotaErr) 7
    "en" "casual" ⟨false, 0⟩ rfl (by decide) (fun c _ => rfl)).2.2

/- ## Claim C5: bounded history with FIFO eviction -/

/-- C5: every `add_message` leaves the history at length
`min(cap, priorLength + 1)` with cap 20, keeps exactly the most recent
entries of the appended sequence (oldest dropped first), and stamps
`last_activity` with the append time.  Applied after each call of any
sequence of appends, this gives the invariant for the whole sequence. -/
theorem c5_add_message_bounded_fifo (ctx : ConversationContext)
    (role content : String) (now : Nat) :
    (addMessage ctx role content now).messages.length
      = min 20 (ctx.messages.length + 1) ∧
    (addMessage ctx role content now).messages
      = (ctx.messages ++ [(⟨role, content, now⟩ : Message)]).drop
          (ctx.messages.length + 1 - 20) ∧
    (addMessage ctx role content now).lastActivity = now := by
  have hlen : (ctx.messages ++ [(⟨role, content, now⟩ : Message)]).length
      = ctx.messages.length + 1 := by
    simp
  refine ⟨?_, ?_, rfl⟩
  · simp only [addMessage]
    split
    · next h =>
      rw [List.length_drop, hlen]
      rw [hlen] at h
      omega
    · next h =>
      rw [hlen]
      rw [hlen] at h
      omega
  · simp only [addMessage]
    split
    · next h =>
      rw [hlen]
    · next h =>
      rw [hlen] at h
      have h0 : ctx.messages.length + 1 - 20 = 0 := by omega
      rw [h0, List.drop_zero]

/- ## Claim C6: the cleanup sweep (code bug) -/

/-- Evaluation of the sweep at a failing input: a store holding two expired
contexts (users 1 and 2, `lastActivity = 0`, `now = 1000000` s, timeout 2 h).
The sweep deletes user 1, then the body evaluates
`if user_id in self.rate_limits:` — but the initialization of
`self.rate_limits` in `__init__` is commented out (line 58 of
conversation_manager.py), so this raises `AttributeError`, which the
`except` at line 250 swallows; user 2's expired context survives the sweep,
contradicting the claim that every expired context is removed. -/
theorem c6_sweep_leaves_expired_context :
    cleanupSweepOnce
        [(1, ⟨1, [], 0, "en", "casual"⟩), (2, ⟨2, [], 0, "en", "casual"⟩)] 2 1000000
      = [(2, ⟨2, [], 0, "en", "casual"⟩)] ∧
    isExpired ⟨2, [], 0, "en", "casual"⟩ 2 1000000 = true := by
  exact ⟨by decide, by decide⟩

/- ## Claims C1 and C10: broadcast aggregation -/

/-- Loop invariant of `_send_to_targets`: every delivery increments exactly
one of `success_count`/`failed_count`, and each successful delivery
increments exactly one of `user_count`/`group_count` while failed deliveries
increment neither. -/
theorem sendToChatStep_counts (c : SendCounters) (chats : List (Int × ChatData))
    (t : BTarget) (o : SendOutcome) (now : Nat) :
    (sendToChatStep c chats t o now).1.success + (sendToChatStep c chats t o now).1.failed
      = c.success + c.failed + 1 ∧
    (sendToChatStep c chats t o now).1.success + c.users + c.groups
      = (sendToChatStep c chats t o now).1.users + (sendToChatStep c chats t o now).1.groups
        + c.success := by
  cases o with
  | success =>
    cases hp : t.chatType == "private" <;> simp [sendToChatStep, hp] <;> omega
  | apiErrorGone => simp [sendToChatStep]; omega
  | apiErrorOther => simp [sendToChatStep]; omega
  | otherError => simp [sendToChatStep]; omega

/-- Loop invariant of `_send_to_targets`: every delivery increments exactly
one of `success_count`/`failed_count` by the per-delivery accounting of
`sendToChatStep_counts`. -/
theorem sendLoop_counts (outcomes : Nat → SendOutcome) (now : Nat)
    (targets : List BTarget) (i : Nat) (c : SendCounters)
    (chats : List (Int × ChatData)) :
    (sendToTargetsLoop outcomes now targets i c chats).1.success
        + (sendToTargetsLoop outcomes now targets i c chats).1.failed
      = c.success + c.failed + targets.length ∧
    (sendToTargetsLoop outcomes now targets i c chats).1.success
        + c.users + c.groups
      = (sendToTargetsLoop outcomes now targets i c chats).1.users
        + (sendToTargetsLoop outcomes now targets i c chats).1.groups
        + c.success := by
  induction targets generalizing i c chats with
  | nil =>
    simp only [sendToTargetsLoop, List.length_nil]
    omega
  | cons t rest ih =>
    obtain ⟨hs1, hs2⟩ := sendToChatStep_counts c chats t (outcomes i) now
    obtain ⟨h1, h2⟩ := ih (i + 1) (sendToChatStep c chats t (outcomes i) now).1
      (sendToChatStep c chats t (outcomes i) now).2
    simp only [sendToTargetsLoop, List.length_cons]
    omega

/-- C1: for every target list and every mix of per-target delivery outcomes,
the returned aggregate satisfies `succeeded + failed = totalTargets`
(the all-success and all-failure mixes are instances of the arbitrary
`outcomes` environment). -/
theorem c1_broadcast_succeeded_failed_partition (targets : List BTarget)
    (outcomes : Nat → SendOutcome) (chats : List (Int × ChatData)) (now : Nat) :
    (sendToTargets targets outcomes chats now).1.success
        + (sendToTargets targets outcomes chats now).1.failed
      = (sendToTargets targets outcomes chats now).1.totalTargets := by
  have h := (sendLoop_counts outcomes now targets 0 ⟨0, 0, 0, 0⟩ chats).1
  simp only [sendToTargets]
  simpa using h

/-- C10: in every broadcast result the per-kind counters count only
successful deliveries and partition them:
`succeeded = totalUsers + totalGroups`. -/
theorem c10_kind_counters_partition (targets : List BTarget)
    (outcomes : Nat → SendOutcome) (chats : List (Int × ChatData)) (now : Nat) :
    (sendToTargets targets outcomes chats now).1.success
      = (sendToTargets targets outcomes chats now).1.totalUsers
        + (sendToTargets targets outcomes chats now).1.totalGroups := by
  have h := (sendLoop_counts outcomes now targets 0 ⟨0, 0, 0, 0⟩ chats).2
  simp only [sendToTargets]
  simp only [] at h
  omega

/- ## Claim C7: broadcast and the chat registry (corrected) -/

/-- If no delivery outcome in the batch is classified permanently gone, the
delivery loop leaves the registry untouched. -/
theorem sendLoop_registry_unchanged (outcomes : Nat → SendOutcome) (now : Nat)
    (targets : List BTarget) (i : Nat) (c : SendCounters)
    (chats : List (Int × ChatData))
    (hng : ∀ j, j < targets.length → outcomes (i + j) ≠ SendOutcome.apiErrorGone) :
    (sendToTargetsLoop outcomes now targets i c chats).2 = chats := by
  induction targets generalizing i c chats with
  | nil => rfl
  | cons t rest ih =>
    have h0 : outcomes i ≠ SendOutcome.apiErrorGone := by
      have h := hng 0 (Nat.succ_pos _)
      rwa [Nat.add_zero] at h
    have hng2 : ∀ j, j < rest.length → outcomes (i + 1 + j) ≠ SendOutcome.apiErrorGone := by
      intro j hj
      have h := hng (j + 1) (Nat.succ_lt_succ hj)
      have harith : i + 1 + j = i + (j + 1) := by omega
      rwa [harith]
    simp only [sendToTargetsLoop]
    cases houtcome : outcomes i with
    | success => simpa [sendToChatStep, houtcome] using ih (i + 1) _ chats hng2
    | apiErrorGone => exact absurd houtcome h0
    | apiErrorOther => simpa [sendToChatStep, houtcome] using ih (i + 1) _ chats hng2
    | otherError => simpa [sendToChatStep, houtcome] using ih (i + 1) _ chats hng2

/-- Counterexample to C7 as stated: a one-target broadcast whose delivery
fails with a permanently-gone error returns with the registry changed —
`send_to_chat` (line 164 of broadcast_manager.py) calls
`user_manager.remove_chat` itself instead of merely flagging the chat. -/
theorem c7_counterexample :
    (sendToTargets [⟨5, "private", "T"⟩] (fun _ => SendOutcome.apiErrorGone)
        [(5, ⟨5, "private", none, true, none⟩)] 99).2
      ≠ [(5, ⟨5, "private", none, true, none⟩)] := by
  decide

/-- C7 amended: `Send` mutates the registry itself during the broadcast —
each delivery classified permanently gone immediately routes through
`remove_chat`, which marks that chat inactive with a removal date while
leaving entries under other keys untouched; only when no delivery is
classified permanently gone does `Send` return with the registry exactly
unchanged.  No separate recommendation list is produced for the caller. -/
theorem c7_broadcast_deregisters_inline (targets : List BTarget)
    (outcomes : Nat → SendOutcome) (chats : List (Int × ChatData)) (now : Nat)
    (hng : ∀ j, j < targets.length → outcomes j ≠ SendOutcome.apiErrorGone) :
    (sendToTargets targets outcomes chats now).2 = chats ∧
    (∀ (c : SendCounters) (chats2 : List (Int × ChatData)) (t : BTarget),
      (sendToChatStep c chats2 t SendOutcome.apiErrorGone now).2
        = removeChat chats2 t.chatId now) ∧
    (∀ (chats2 : List (Int × ChatData)) (cid : Int) (d : ChatData),
      (cid, d) ∈ chats2 →
      (cid, { d with isActive := false, removedDate := some now })
        ∈ removeChat chats2 cid now) ∧
    (∀ (chats2 : List (Int × ChatData)) (cid cid2 : Int) (d : ChatData),
      (cid2, d) ∈ chats2 → cid2 ≠ cid → (cid2, d) ∈ removeChat chats2 cid now) := by
  refine ⟨?_, fun c chats2 t => rfl, ?_, ?_⟩
  · exact sendLoop_registry_unchanged outcomes now targets 0 ⟨0, 0, 0, 0⟩ chats
      (by simpa using hng)
  · intro chats2 cid d hmem
    have h2 := List.mem_map_of_mem
      (fun p : Int × ChatData =>
        if p.1 == cid then (p.1, { p.2 with isActive := false, removedDate := some now })
        else p) hmem
    simpa [removeChat] using h2
  · intro chats2 cid cid2 d hmem hne
    have h2 := List.mem_map_of_mem
      (fun p : Int × ChatData =>
        if p.1 == cid then (p.1, { p.2 with isActive := false, removedDate := some now })
        else p) hmem
    simpa [removeChat, beq_eq_false_iff_ne.mpr hne] using h2

/-- Witness for C7 amended at a concrete broadcast with no permanently-gone
outcome: the registry comes back unchanged. -/
theorem c7_witness :
    (sendToTargets [⟨7, "private", "A"⟩] (fun _ => SendOutcome.success)
        [(7, ⟨7, "private", none, true, none⟩)] 5).2
      = [(7, ⟨7, "private", none, true, none⟩)] :=
  (c7_broadcast_deregisters_inline [⟨7, "private", "A"⟩] (fun _ => SendOutcome.success)
    [(7, ⟨7, "private", none, true, none⟩)] 5
    (fun j hj h => SendOutcome.noConfusion h)).1

/- ## Claim C8: post-processing purity/determinism (corrected) -/

set_option maxRecDepth 10000 in
/-- Counterexample to C8 as stated: on the same inputs
(text, language, tone) — a casual-tone response longer than 50 characters
ending in a period — two runs of `_post_process_response` can return
different strings, because line 128 of gemini_client.py consults
`random.random()` and may append a casual filler: the function is not a
deterministic function of (text, language, tone) alone. -/
theorem c8_counterexample :
    postProcessResponse
        "The weather was great today and we walked along the river for a while."
        "en" "casual" ⟨true, 0⟩
      ≠ postProcessResponse
          "The weather was great today and we walked along the river for a while."
          "en" "casual" ⟨false, 0⟩ := by
  decide

/-- C8 amended: post-processing is a pure function of its inputs together
with the two random draws it consumes (it returns a new string and touches no
client state — in this embedding it is a plain function); whenever the tone
is not "casual" the random draws are never consulted, so any two runs on the
same (text, language, tone) agree. -/
theorem c8_post_process_deterministic_in_draws (text language tone : String)
    (r1 r2 : RandDraw) (h : tone ≠ "casual") :
    postProcessResponse text language tone r1
      = postProcessResponse text language tone r2 := by
  have hb : (tone == "casual") = false := beq_eq_false_iff_ne.mpr h
  simp only [postProcessResponse, hb, Bool.false_eq_true, if_false]

/-- Witness for C8 amended at a concrete formal-tone input. -/
theorem c8_witness :
    postProcessResponse "Hello there." "en" "formal" ⟨true, 0⟩
      = postProcessResponse "Hello there." "en" "formal" ⟨false, 3⟩ :=
  c8_post_process_deterministic_in_draws "Hello there." "en" "formal"
    ⟨true, 0⟩ ⟨false, 3⟩ (by decide)

/- ## Claim C9: failure converts to a fixed fallback -/

/-- A cyclic-index read of a non-empty list is a member of the list. -/
theorem getD_mod_mem {α : Type} (l : List α) (d : α) (i : Nat) (h : l ≠ []) :
    l.getD (i % l.length) d ∈ l := by
  have hlen : 0 < l.length := List.length_pos.mpr h
  have hlt : i % l.length < l.length := Nat.mod_lt _ hlen
  rw [List.getD_eq_getElem l d hlt]
  exact List.getElem_mem hlt

/-- C9: when generation fails (the inference client yields no text, be it
from an open circuit or a failed/empty generation), `get_response` returns
exactly the tone-aware fallback, and that fallback is always drawn from the
fixed tone-matched pool — either verbatim, or as the pool string lowercased
and prefixed with the user's name.  No other string (in particular no raw
backend error, which the `None` result does not even carry) can be
returned. -/
theorem c9_fallback_fixed_set (tone : String) (userName : Option String)
    (choiceIdx : Nat) (enhance : String → String) :
    getResponseReply none tone userName enhance choiceIdx
      = getFallbackResponse tone userName choiceIdx ∧
    (getFallbackResponse tone userName choiceIdx
        ∈ (if tone == "formal" then formalFallbackResponses else casualFallbackResponses) ∨
     ∃ name base,
       userName = some name ∧
       base ∈ (if tone == "formal" then formalFallbackResponses else casualFallbackResponses) ∧
       getFallbackResponse tone userName choiceIdx = name ++ ", " ++ strLower base) := by
  refine ⟨rfl, ?_⟩
  have hne : (if tone == "formal" then formalFallbackResponses else casualFallbackResponses)
      ≠ [] := by
    cases tone == "formal" <;> simp [formalFallbackResponses, casualFallbackResponses]
  have hmem := getD_mod_mem
    (if tone == "formal" then formalFallbackResponses else casualFallbackResponses)
    "" choiceIdx hne
  cases userName with
  | none => exact Or.inl hmem
  | some name =>
    by_cases hcond : (name != "" && tone != "formal") = true
    · right
      refine ⟨name,
        (if tone == "formal" then formalFallbackResponses else casualFallbackResponses).getD
          (choiceIdx %
            (if tone == "formal" then formalFallbackResponses
             else casualFallbackResponses).length) "",
        rfl, hmem, ?_⟩
      simp only [getFallbackResponse]
      rw [if_pos hcond]
    · left
      simp only [getFallbackResponse]
      rw [if_neg hcond]
      exact hmem
